import Mathlib

/-!
Verification of the beatble-rs input-to-BLE-notification bridge.

Shallow embedding of the repository's core logic:
- `src/input/ble.rs`: `NormalButton`, `OptionButton`, `KeyInput`, `KeyInput::to_payload`
- `src/input/platform/linux.rs`: raw joystick event decoding and `Device::open` error mapping
- `src/input/gamepad.rs`: the gilrs button mapping and the input-handler event step
- `src/ble/key_input/characteristics.rs`: the notification sampler loop and the
  subscribe/unsubscribe dispatcher

Machine integers (u8, u16, i16 bit patterns) are modelled as `Nat` with explicit
wrapping (`% 256`, `&&& 0xFF`, `% 65536`) where the Rust code's release-mode
semantics wrap.
-/

namespace Beatble

/-- `NormalButton` bitflags from `src/input/ble.rs` (u8, bits B1..B7). -/
structure NormalButton where
  bits : Nat
  deriving DecidableEq, Repr

namespace NormalButton

def B1 : NormalButton := ⟨0b00000001⟩
def B2 : NormalButton := ⟨0b00000010⟩
def B3 : NormalButton := ⟨0b00000100⟩
def B4 : NormalButton := ⟨0b00001000⟩
def B5 : NormalButton := ⟨0b00010000⟩
def B6 : NormalButton := ⟨0b00100000⟩
def B7 : NormalButton := ⟨0b01000000⟩

/-- `bitflags` `empty()`. -/
def empty : NormalButton := ⟨0⟩

/-- `bitflags` `insert`: `self.bits |= other.bits`. -/
def insert (a b : NormalButton) : NormalButton := ⟨a.bits ||| b.bits⟩

/-- `bitflags` `remove`: `self.bits &= !other.bits` (u8 complement). -/
def remove (a b : NormalButton) : NormalButton := ⟨a.bits &&& (255 ^^^ b.bits)⟩

end NormalButton

/-- `OptionButton` bitflags from `src/input/ble.rs` (u8, bits E1..E4). -/
structure OptionButton where
  bits : Nat
  deriving DecidableEq, Repr

namespace OptionButton

def E1 : OptionButton := ⟨0b0001⟩
def E2 : OptionButton := ⟨0b0010⟩
def E3 : OptionButton := ⟨0b0100⟩
def E4 : OptionButton := ⟨0b1000⟩

/-- `bitflags` `empty()`. -/
def empty : OptionButton := ⟨0⟩

/-- `bitflags` `insert`: `self.bits |= other.bits`. -/
def insert (a b : OptionButton) : OptionButton := ⟨a.bits ||| b.bits⟩

/-- `bitflags` `remove`: `self.bits &= !other.bits` (u8 complement). -/
def remove (a b : OptionButton) : OptionButton := ⟨a.bits &&& (255 ^^^ b.bits)⟩

end OptionButton

/-- `KeyInput` from `src/input/ble.rs`: scratch axis (u8) plus the two button bit-sets. -/
structure KeyInput where
  scratch : Nat
  normal_button : NormalButton
  option_button : OptionButton
  deriving DecidableEq, Repr

namespace KeyInput

/-- `impl Default for KeyInput`: all-zero state. -/
def default : KeyInput :=
  { scratch := 0, normal_button := NormalButton.empty, option_button := OptionButton.empty }

/-- `KeyInput::init()`: identical to the default state. -/
def init : KeyInput :=
  { scratch := 0x00, normal_button := NormalButton.empty, option_button := OptionButton.empty }

/-- `KeyInput::to_payload(&self, counter: u8) -> [u8; 10]` from `src/input/ble.rs`.
`counter` is a u8 value (< 256); the second embedded counter `counter + 1` wraps
modulo 256 (release-mode u8 semantics). -/
def to_payload (k : KeyInput) (counter : Nat) : List Nat :=
  [ k.scratch,
    0x00,
    k.normal_button.bits,
    k.option_button.bits,
    counter,
    k.scratch,
    0x00,
    k.normal_button.bits,
    k.option_button.bits,
    (counter + 1) % 256 ]

end KeyInput

end Beatble

namespace Beatble

/-- C2: for every `KeyInput` state `s` and every counter in `0..255`, `to_payload`
returns exactly the 10-byte frame `[scratch, 0x00, normalBits, optionBits, counter,
scratch, 0x00, normalBits, optionBits, (counter+1) mod 256]`; byte 4 equals the
counter, byte 9 equals `(counter + 1) mod 256`, and bytes 0-3 equal bytes 5-8. -/
theorem to_payload_frame (s : KeyInput) (counter : Nat) (h : counter < 255) :
    s.to_payload counter =
      [ s.scratch, 0x00, s.normal_button.bits, s.option_button.bits, counter,
        s.scratch, 0x00, s.normal_button.bits, s.option_button.bits,
        (counter + 1) % 256 ] ∧
    (s.to_payload counter).get? 4 = some counter ∧
    (s.to_payload counter).get? 9 = some ((counter + 1) % 256) ∧
    ((s.to_payload counter).take 4 = ((s.to_payload counter).drop 5).take 4) := by
  refine ⟨rfl, rfl, rfl, ?_⟩
  simp [KeyInput.to_payload]

theorem to_payload_frame_witness :
    (7 : Nat) < 255 ∧
      (KeyInput.default.to_payload 7 =
        [ KeyInput.default.scratch, 0x00, KeyInput.default.normal_button.bits,
          KeyInput.default.option_button.bits, 7,
          KeyInput.default.scratch, 0x00, KeyInput.default.normal_button.bits,
          KeyInput.default.option_button.bits, (7 + 1) % 256 ] ∧
      (KeyInput.default.to_payload 7).get? 4 = some 7 ∧
      (KeyInput.default.to_payload 7).get? 9 = some ((7 + 1) % 256) ∧
      ((KeyInput.default.to_payload 7).take 4 =
        ((KeyInput.default.to_payload 7).drop 5).take 4)) :=
  ⟨by decide, to_payload_frame KeyInput.default 7 (by decide)⟩

/-- C3: counter wrap-around: for every `KeyInput` state `s`, `to_payload s 255`
is a full 10-byte frame whose byte 9 is 0 (the u8 addition `counter + 1` wraps
modulo 256 under release semantics; no fault). -/
theorem to_payload_counter_wrap (s : KeyInput) :
    (s.to_payload 255).length = 10 ∧ (s.to_payload 255).get? 9 = some 0 := by
  exact ⟨rfl, rfl⟩

/-! ## `src/input/platform/linux.rs`: raw joystick backend -/

/-- `Event` from `src/input/platform/linux.rs`. Button/axis indices are u8;
the axis value is an i16 carried here as its 16-bit pattern. -/
inductive JsEvent where
  | ButtonPressed (number : Nat)
  | ButtonReleased (number : Nat)
  | AxisChanged (number : Nat) (value : Nat)
  | Disconnected
  | Error (msg : String)
  deriving DecidableEq, Repr

/-- `EventType` bitflag constants from `src/input/platform/linux.rs`. -/
def EventType.BUTTON : Nat := 0x01

def EventType.AXIS : Nat := 0x02

def EventType.INIT : Nat := 0x80

/-- `RawEvent` from `src/input/platform/linux.rs`: the fixed 8-byte kernel
joystick record. `value` is the i16 field as its 16-bit pattern (< 65536);
`typ` and `number` are u8 (< 256). -/
structure RawEvent where
  time : Nat
  value : Nat
  typ : Nat
  number : Nat
  deriving DecidableEq, Repr

/-- `impl From<RawEvent> for Option<Event>` from `src/input/platform/linux.rs`.
`Except.error` models the `unreachable!()` panic arm. The INIT check is
`ev.typ.contains(EventType::INIT)`; the two match arms compare `ev.typ` for
exact equality with `BUTTON` and `AXIS`. The axis arm computes
`ev.value << 8`, which on an i16 bit pattern is `(value * 256) % 65536`. -/
def RawEvent.toEvent (ev : RawEvent) : Except String (Option JsEvent) :=
  if ev.typ &&& EventType.INIT = EventType.INIT then
    Except.ok none
  else if ev.typ = EventType.BUTTON then
    if ev.value = 0 then
      Except.ok (some (JsEvent.ButtonReleased ev.number))
    else
      Except.ok (some (JsEvent.ButtonPressed ev.number))
  else if ev.typ = EventType.AXIS then
    Except.ok (some (JsEvent.AxisChanged ev.number ((ev.value * 256) % 65536)))
  else
    Except.error "unreachable"

/-- `OpenError` from `src/input/platform/linux.rs`. `Unknown` carries the
underlying errno (the code wraps it in an `eyre::Report`). -/
inductive OpenError where
  | DeviceFileNotFound (path : String)
  | PermissionDenied (path : String)
  | InvalidPath (path : String)
  | Unknown (errno : Nat)
  deriving DecidableEq, Repr

/-- Linux errno values used by `Device::open` (`nix::errno::Errno`). -/
def Errno.ENOENT : Nat := 2

def Errno.EPERM : Nat := 1

def Errno.EINVAL : Nat := 22

def Errno.EACCES : Nat := 13

/-- `Device` from `src/input/platform/linux.rs`: owns the raw fd. -/
structure Device where
  fd : Int
  deriving DecidableEq, Repr

/-- The error-mapping closure inside `Device::open`
(`src/input/platform/linux.rs`, lines 162-171): matches the errno from
`fcntl::open` against `ENOENT`/`EPERM`/`EINVAL` and folds everything else
into `Unknown`. -/
def openErrnoToOpenError (path : String) (e : Nat) : OpenError :=
  if e = Errno.ENOENT then OpenError.DeviceFileNotFound path
  else if e = Errno.EPERM then OpenError.PermissionDenied path
  else if e = Errno.EINVAL then OpenError.InvalidPath path
  else OpenError.Unknown e

/-- `Device::open(path)` from `src/input/platform/linux.rs`, with the
`fcntl::open` syscall result passed in explicitly (`Except errno fd`):
on success it wraps the fd in a `Device`, on failure it maps the errno
through the taxonomy above. -/
def Device.open (path : String) (sys : Except Nat Int) : Except OpenError Device :=
  match sys with
  | Except.ok fd => Except.ok ⟨fd⟩
  | Except.error e => Except.error (openErrnoToOpenError path e)

/-- C5 divergence record: `open(2)` on a path without read permission fails
with errno EACCES (13), not EPERM — the code opens with plain `O_RDONLY`, so
none of the EPERM special cases apply. The match in `Device::open`
(`src/input/platform/linux.rs`, line 168) handles only `Errno::EPERM`, so a
permission-denied open is folded into `Unknown(13)` instead of yielding
`PermissionDenied` as the claim (and spec section 8's scenario) states.
Evaluated here at the failing input; the remaining taxonomy arms
(ENOENT, EINVAL, the EPERM arm the code does have, and success) behave as
described. -/
theorem device_open_eacces_unknown :
    Device.open "/dev/input/js0" (Except.error Errno.EACCES) =
      Except.error (OpenError.Unknown 13) ∧
    Device.open "/dev/input/js0" (Except.error Errno.EACCES) ≠
      Except.error (OpenError.PermissionDenied "/dev/input/js0") ∧
    Device.open "/dev/input/js0" (Except.error Errno.EPERM) =
      Except.error (OpenError.PermissionDenied "/dev/input/js0") ∧
    Device.open "/dev/input/js0" (Except.error Errno.ENOENT) =
      Except.error (OpenError.DeviceFileNotFound "/dev/input/js0") ∧
    Device.open "/dev/input/js0" (Except.error Errno.EINVAL) =
      Except.error (OpenError.InvalidPath "/dev/input/js0") ∧
    Device.open "/dev/input/js0" (Except.ok 3) = Except.ok ⟨3⟩ := by
  refine ⟨rfl, ?_, rfl, rfl, rfl, rfl⟩
  intro hcontra
  simp [Device.open, openErrnoToOpenError, Errno.EACCES, Errno.ENOENT, Errno.EPERM,
    Errno.EINVAL] at hcontra

/-- C6: decoding a raw 8-byte joystick record: an event with the INIT bit set is
discarded; otherwise a flag equal to BUTTON yields `ButtonReleased(index)` for
value 0 and `ButtonPressed(index)` for any nonzero value; a flag equal to AXIS
yields `AxisChanged(index, rawValue << 8)`; any other flag value hits the
`unreachable!()` arm. -/
theorem raw_event_decoding (t v n typ : Nat) (hv : v < 65536) :
    (typ &&& EventType.INIT = EventType.INIT →
      (RawEvent.mk t v typ n).toEvent = Except.ok none) ∧
    (typ &&& EventType.INIT ≠ EventType.INIT →
      ((typ = EventType.BUTTON →
        (RawEvent.mk t v typ n).toEvent =
          Except.ok (some (if v = 0 then JsEvent.ButtonReleased n
                           else JsEvent.ButtonPressed n))) ∧
      (typ = EventType.AXIS →
        (RawEvent.mk t v typ n).toEvent =
          Except.ok (some (JsEvent.AxisChanged n ((v * 256) % 65536)))) ∧
      (typ ≠ EventType.BUTTON → typ ≠ EventType.AXIS →
        (RawEvent.mk t v typ n).toEvent = Except.error "unreachable"))) := by
  constructor
  · intro h
    simp [RawEvent.toEvent, h]
  · intro h
    refine ⟨?_, ?_, ?_⟩
    · intro hb
      subst hb
      by_cases hv0 : v = 0 <;>
        simp [RawEvent.toEvent, EventType.BUTTON, EventType.AXIS, EventType.INIT, hv0]
    · intro ha
      subst ha
      simp [RawEvent.toEvent, EventType.BUTTON, EventType.AXIS, EventType.INIT]
    · intro hb ha
      simp [RawEvent.toEvent, h, hb, ha]

theorem raw_event_decoding_witness :
    (100 : Nat) < 65536 ∧
    (((0x81 : Nat) &&& EventType.INIT = EventType.INIT →
      (RawEvent.mk 0 100 0x81 4).toEvent = Except.ok none) ∧
    ((0x81 : Nat) &&& EventType.INIT ≠ EventType.INIT →
      (((0x81 : Nat) = EventType.BUTTON →
        (RawEvent.mk 0 100 0x81 4).toEvent =
          Except.ok (some (if (100 : Nat) = 0 then JsEvent.ButtonReleased 4
                           else JsEvent.ButtonPressed 4))) ∧
      ((0x81 : Nat) = EventType.AXIS →
        (RawEvent.mk 0 100 0x81 4).toEvent =
          Except.ok (some (JsEvent.AxisChanged 4 ((100 * 256) % 65536)))) ∧
      ((0x81 : Nat) ≠ EventType.BUTTON → (0x81 : Nat) ≠ EventType.AXIS →
        (RawEvent.mk 0 100 0x81 4).toEvent = Except.error "unreachable")))) :=
  ⟨by decide, raw_event_decoding 0 100 4 0x81 (by decide)⟩

end Beatble

namespace Beatble

/-! ## `src/input/gamepad.rs`: generic (gilrs) backend -/

/-- The `gilrs::ev::Button` enumeration (the generic backend's native button
codes), as matched by `CodeExt` in `src/input/gamepad.rs`. -/
inductive Button where
  | South
  | East
  | North
  | West
  | C
  | Z
  | LeftTrigger
  | LeftTrigger2
  | RightTrigger
  | RightTrigger2
  | Select
  | Start
  | Mode
  | LeftThumb
  | RightThumb
  | DPadUp
  | DPadDown
  | DPadLeft
  | DPadRight
  | Unknown
  deriving DecidableEq, Repr

/-- `CodeExt::normal_button` from `src/input/gamepad.rs`: the seven
normal-group buttons map to B1..B7; everything else is unmapped. -/
def Button.normal_button : Button → Option NormalButton
  | Button.South => some NormalButton.B1
  | Button.East => some NormalButton.B2
  | Button.North => some NormalButton.B3
  | Button.West => some NormalButton.B4
  | Button.LeftTrigger => some NormalButton.B5
  | Button.LeftTrigger2 => some NormalButton.B6
  | Button.RightTrigger => some NormalButton.B7
  | _ => none

/-- `CodeExt::option_button` from `src/input/gamepad.rs`: the four
option-group buttons map to E1..E4; everything else is unmapped. -/
def Button.option_button : Button → Option OptionButton
  | Button.Select => some OptionButton.E1
  | Button.Start => some OptionButton.E2
  | Button.Mode => some OptionButton.E3
  | Button.RightTrigger2 => some OptionButton.E4
  | _ => none

/-- The button-event cases of the gilrs `EventType` handled by
`create_input_handler`'s match (`src/input/gamepad.rs`, lines 78-93). -/
inductive GamepadButtonEvent where
  | ButtonPressed (b : Button)
  | ButtonReleased (b : Button)
  deriving DecidableEq, Repr

/-- One step of the input handler's event-processing loop for a button event
(`src/input/gamepad.rs`, lines 78-93): on press, insert the mapped bits into
the working `KeyInput`; on release, remove them; unmapped buttons change
nothing. -/
def handleButtonEvent (k : KeyInput) : GamepadButtonEvent → KeyInput
  | GamepadButtonEvent.ButtonPressed b =>
    let k1 :=
      match b.normal_button with
      | some nb => { k with normal_button := k.normal_button.insert nb }
      | none => k
    match b.option_button with
    | some ob => { k1 with option_button := k1.option_button.insert ob }
    | none => k1
  | GamepadButtonEvent.ButtonReleased b =>
    let k1 :=
      match b.normal_button with
      | some nb => { k with normal_button := k.normal_button.remove nb }
      | none => k
    match b.option_button with
    | some ob => { k1 with option_button := k1.option_button.remove ob }
    | none => k1

/-- A `NormalButton` value with exactly one bit set. -/
def NormalButton.singleBit (n : NormalButton) : Prop := ∃ i, i < 7 ∧ n.bits = 2 ^ i

/-- An `OptionButton` value with exactly one bit set. -/
def OptionButton.singleBit (o : OptionButton) : Prop := ∃ i, i < 4 ∧ o.bits = 2 ^ i

/-- C7: the generic backend's button mapping is injective over its defined
domain: every mapped normal-group button gets a single distinct `NormalButton`
bit, every mapped option-group button gets a single distinct `OptionButton`
bit, and a press or release of an unmapped button leaves the `KeyInput`
state unchanged. -/
theorem button_mapping_injective :
    (∀ b1 b2 : Button, ∀ n : NormalButton,
      b1.normal_button = some n → b2.normal_button = some n → b1 = b2) ∧
    (∀ b : Button, ∀ n : NormalButton, b.normal_button = some n → n.singleBit) ∧
    (∀ b1 b2 : Button, ∀ o : OptionButton,
      b1.option_button = some o → b2.option_button = some o → b1 = b2) ∧
    (∀ b : Button, ∀ o : OptionButton, b.option_button = some o → o.singleBit) ∧
    (∀ b : Button, b.normal_button = none → b.option_button = none →
      ∀ k : KeyInput, handleButtonEvent k (GamepadButtonEvent.ButtonPressed b) = k ∧
        handleButtonEvent k (GamepadButtonEvent.ButtonReleased b) = k) := by
  refine ⟨?_, ?_, ?_, ?_, ?_⟩
  · intro b1 b2 n h1 h2
    obtain ⟨nbits⟩ := n
    cases b1 <;> cases b2 <;>
      simp_all [Button.normal_button, NormalButton.B1, NormalButton.B2, NormalButton.B3,
        NormalButton.B4, NormalButton.B5, NormalButton.B6, NormalButton.B7,
        NormalButton.mk.injEq] <;> omega
  · intro b n h
    cases b <;> simp_all [Button.normal_button] <;> subst h <;>
      first
      | exact ⟨0, by decide, rfl⟩
      | exact ⟨1, by decide, rfl⟩
      | exact ⟨2, by decide, rfl⟩
      | exact ⟨3, by decide, rfl⟩
      | exact ⟨4, by decide, rfl⟩
      | exact ⟨5, by decide, rfl⟩
      | exact ⟨6, by decide, rfl⟩
  · intro b1 b2 o h1 h2
    obtain ⟨obits⟩ := o
    cases b1 <;> cases b2 <;>
      simp_all [Button.option_button, OptionButton.E1, OptionButton.E2, OptionButton.E3,
        OptionButton.E4, OptionButton.mk.injEq] <;> omega
  · intro b o h
    cases b <;> simp_all [Button.option_button] <;> subst h <;>
      first
      | exact ⟨0, by decide, rfl⟩
      | exact ⟨1, by decide, rfl⟩
      | exact ⟨2, by decide, rfl⟩
      | exact ⟨3, by decide, rfl⟩
  · intro b hn ho k
    constructor <;> simp [handleButtonEvent, hn, ho]

end Beatble

namespace Beatble

/-! ## `src/ble/key_input/characteristics.rs`: notification sampler and dispatcher -/

/-- `x &&& 0xFF` is reduction modulo 256. -/
theorem land_255_eq_mod (x : Nat) : x &&& 255 = x % 256 := by
  have h : (255 : Nat) = 2 ^ 8 - 1 := by norm_num
  rw [h, Nat.and_pow_two_sub_one_eq_mod]

/-- One iteration of the per-subscription sampler loop
(`src/ble/key_input/characteristics.rs`, lines 46-67), acting on the shared
`AtomicCell<KeyInput>` content `cell` with the loop's `counter : u16`:
if the shared `notifying` flag is false the loop breaks (no payload);
otherwise it stores `KeyInput::default()` into the cell (the "reset" block),
loads the cell, encodes `to_payload((counter & 0xFF) as u8)`, sends the
payload, and advances `counter = (counter + 2) & 0xFF`.
Returns (new counter, new cell content, sent payload if any). -/
def samplerIteration (notifying : Bool) (counter : Nat) (cell : KeyInput) :
    Nat × KeyInput × Option (List Nat) :=
  if notifying then
    let cell2 := KeyInput.default
    let payload := cell2.to_payload (counter &&& 0xFF)
    ((counter + 2) &&& 0xFF, cell2, some payload)
  else
    (counter, cell, none)

/-- The sampler's `counter` value at the start of its n-th iteration:
`let mut counter: u16 = 0` and `counter = (counter + 2) & 0xFF` per iteration
(`src/ble/key_input/characteristics.rs`, lines 43 and 65). -/
def samplerCounter : Nat → Nat
  | 0 => 0
  | n + 1 => (samplerCounter n + 2) &&& 0xFF

/-- C4: the counter the sampler passes to `to_payload` is always even and at
most 254 — it starts at 0 and advances by `(counter + 2) & 0xFF`, masked to 8
bits before the call — so the u8 addition `counter + 1` inside `to_payload`
never overflows (`(counter &&& 0xFF) + 1 < 256`) for any counter the sampler
produces; and `samplerCounter` is exactly the counter recurrence of
`samplerIteration`. -/
theorem sampler_counter_no_overflow :
    ∀ n : Nat, samplerCounter n % 2 = 0 ∧ samplerCounter n ≤ 254 ∧
      (samplerCounter n &&& 0xFF) + 1 < 256 ∧
      (∀ cell : KeyInput, (samplerIteration true (samplerCounter n) cell).1 =
        samplerCounter (n + 1)) := by
  intro n
  have key : samplerCounter n % 2 = 0 ∧ samplerCounter n ≤ 254 := by
    induction n with
    | zero => exact ⟨rfl, by decide⟩
    | succ m ih =>
      obtain ⟨h2, h254⟩ := ih
      constructor
      · show ((samplerCounter m + 2) &&& 0xFF) % 2 = 0
        rw [land_255_eq_mod]
        omega
      · show (samplerCounter m + 2) &&& 0xFF ≤ 254
        rw [land_255_eq_mod]
        omega
  obtain ⟨h2, h254⟩ := key
  refine ⟨h2, h254, ?_, ?_⟩
  · rw [land_255_eq_mod]
    omega
  · intro cell
    rfl

/-- C1 counterexample record: the sampler's own iteration overwrites the shared
cell. With the device backend having last stored a non-default state (scratch 5,
B1 held), one enabled sampler iteration leaves the cell holding
`KeyInput::default()` — not the backend's value — and the payload it sends
encodes the default state: the `key_input.store(KeyInput::default())` "reset"
block (`src/ble/key_input/characteristics.rs`, lines 51-54) is a store
performed by the sampler. -/
theorem sampler_resets_shared_cell :
    (samplerIteration true 0
      { scratch := 5, normal_button := NormalButton.B1,
        option_button := OptionButton.empty }).2.1 = KeyInput.default ∧
    (samplerIteration true 0
      { scratch := 5, normal_button := NormalButton.B1,
        option_button := OptionButton.empty }).2.1 ≠
      { scratch := 5, normal_button := NormalButton.B1,
        option_button := OptionButton.empty } ∧
    (samplerIteration true 0
      { scratch := 5, normal_button := NormalButton.B1,
        option_button := OptionButton.empty }).2.2 =
      some (KeyInput.default.to_payload 0) := by
  refine ⟨rfl, ?_, rfl⟩
  intro h
  have := congrArg KeyInput.scratch h
  simp [samplerIteration, KeyInput.default] at this

/-- The sampler loop run against a schedule of observed `notifying`-flag values,
one per iteration, returning the payloads sent: the loop breaks at the first
iteration that observes `false` (`src/ble/key_input/characteristics.rs`,
lines 46-49). -/
def samplerRun : List Bool → Nat → KeyInput → List (List Nat)
  | [], _, _ => []
  | f :: rest, counter, cell =>
    match samplerIteration f counter cell with
    | (c2, cell2, some p) => p :: samplerRun rest c2 cell2
    | (_, _, none) => []

/-- The GATT characteristic events dispatched by the handler
(`bluster::gatt::event::Event`). -/
inductive BleEvent where
  | NotifySubscribe
  | NotifyUnsubscribe
  | Other
  deriving DecidableEq, Repr

/-- The dispatcher's handling of one event
(`src/ble/key_input/characteristics.rs`, lines 36-84), restricted to the
shared `notifying` flag: `NotifySubscribe` stores `true` (and spawns a
sampler), `NotifyUnsubscribe` stores `false`, anything else only logs.
Returns (new flag value, whether a sampler was spawned). -/
def handleBleEvent (notifying : Bool) : BleEvent → Bool × Bool
  | BleEvent.NotifySubscribe => (true, true)
  | BleEvent.NotifyUnsubscribe => (false, false)
  | BleEvent.Other => (notifying, false)

/-- C8: after `NotifyUnsubscribe` the `notifying` flag is cleared, and a
sampler that observes the cleared flag at its next iteration exits without
sending anything — so (time measured in sleep intervals, one iteration per
interval) no payload is sent once one interval has elapsed; after
`NotifySubscribe` the flag is set and the sampler's very first iteration
already sends a payload — at least one payload within two sleep intervals. -/
theorem unsubscribe_stops_subscribe_emits (b : Bool) :
    (handleBleEvent b BleEvent.NotifyUnsubscribe).1 = false ∧
    (∀ fs : List Bool, ∀ counter : Nat, ∀ cell : KeyInput,
      samplerRun (false :: fs) counter cell = []) ∧
    (handleBleEvent b BleEvent.NotifySubscribe).1 = true ∧
    (∀ fs : List Bool, ∀ counter : Nat, ∀ cell : KeyInput,
      1 ≤ (samplerRun (true :: fs) counter cell).length) := by
  refine ⟨rfl, ?_, rfl, ?_⟩
  · intro fs counter cell
    rfl
  · intro fs counter cell
    simp [samplerRun, samplerIteration]

end Beatble

namespace Beatble

theorem button_mapping_injective_witness :
    NormalButton.singleBit NormalButton.B1 ∧
    handleButtonEvent KeyInput.default (GamepadButtonEvent.ButtonPressed Button.C) =
      KeyInput.default :=
  ⟨button_mapping_injective.2.1 Button.South NormalButton.B1 rfl,
   (button_mapping_injective.2.2.2.2 Button.C rfl rfl KeyInput.default).1⟩

/-- The whole characteristic handler plus the sampler tasks it spawned
(`src/ble/key_input/characteristics.rs`): one `notifying` flag created once
per characteristic (line 34) and shared — via `Arc::clone` — by every sampler
the dispatcher ever spawns; the one shared `AtomicCell<KeyInput>`; each
spawned sampler's (alive, counter) pair; and the log of (sampler index,
payload) notifications sent. -/
structure World where
  flag : Bool
  cell : KeyInput
  samplers : List (Bool × Nat)
  log : List (Nat × List Nat)
  deriving DecidableEq, Repr

/-- The handler's state when it starts: flag false, no samplers, cell as
created by `create_input_handler` (`KeyInput::init()`). -/
def World.start : World :=
  { flag := false, cell := KeyInput.init, samplers := [], log := [] }

/-- An interleaving step: either the dispatcher consumes the next GATT event,
or the sampler task with index `i` runs one loop iteration. -/
inductive Action where
  | dispatch (e : BleEvent)
  | step (i : Nat)
  deriving DecidableEq, Repr

/-- Small-step semantics of the handler and its sampler tasks
(`src/ble/key_input/characteristics.rs`): `NotifySubscribe` stores `true`
into the single shared flag and spawns a fresh sampler with counter 0
(lines 38-69); `NotifyUnsubscribe` stores `false` into that same flag
(lines 71-77); a sampler's iteration observes the current shared flag —
it breaks (dies) if the flag is false, otherwise resets and reads the shared
cell, appends its payload to the log and advances its counter. -/
def worldStep (w : World) : Action → World
  | Action.dispatch BleEvent.NotifySubscribe =>
    { w with flag := true, samplers := w.samplers ++ [(true, 0)] }
  | Action.dispatch BleEvent.NotifyUnsubscribe =>
    { w with flag := false }
  | Action.dispatch BleEvent.Other => w
  | Action.step i =>
    match w.samplers.get? i with
    | some (true, counter) =>
      match samplerIteration w.flag counter w.cell with
      | (c2, cell2, some p) =>
        { flag := w.flag, cell := cell2, samplers := w.samplers.set i (true, c2), log := w.log ++ [(i, p)] }
      | (_, _, none) =>
        { w with samplers := w.samplers.set i (false, counter) }
    | _ => w

/-- Run a sequence of interleaving steps from the handler's starting state. -/
def worldRun (as : List Action) : World := as.foldl worldStep World.start

/-- C9: all samplers spawned by the characteristic handler share the one
`notifying` flag: `NotifySubscribe` stores `true` into it, a single
`NotifyUnsubscribe` makes every running sampler's next iteration exit with no
payload; and a `NotifySubscribe` processed before a previously-unsubscribed
sampler has observed the cleared flag re-enables that old sampler — in the
concrete interleaving below, sampler 0 (spawned by the first subscribe) and
sampler 1 (spawned by the second) both send payloads after the second
subscribe, i.e. two sampler loops run concurrently on one characteristic. -/
theorem shared_notifying_flag (w : World) (i counter : Nat) :
    (worldStep w (Action.dispatch BleEvent.NotifySubscribe)).flag = true ∧
    (worldStep w (Action.dispatch BleEvent.NotifyUnsubscribe)).flag = false ∧
    (w.flag = false → w.samplers.get? i = some (true, counter) →
      (worldStep w (Action.step i)).samplers = w.samplers.set i (false, counter) ∧
      (worldStep w (Action.step i)).log = w.log) ∧
    (worldRun [Action.dispatch BleEvent.NotifySubscribe, Action.step 0,
        Action.dispatch BleEvent.NotifyUnsubscribe,
        Action.dispatch BleEvent.NotifySubscribe,
        Action.step 0, Action.step 1]).log =
      [(0, KeyInput.default.to_payload 0), (0, KeyInput.default.to_payload 2),
       (1, KeyInput.default.to_payload 0)] := by
  refine ⟨rfl, rfl, ?_, by decide⟩
  intro hflag hget
  have hget2 : w.samplers[i]? = some (true, counter) := by
    simpa [List.get?_eq_getElem?] using hget
  simp [worldStep, hget2, hflag, samplerIteration]

theorem shared_notifying_flag_witness :
    (worldStep
        { flag := false, cell := KeyInput.init, samplers := [(true, 4)], log := [] }
        (Action.dispatch BleEvent.NotifySubscribe)).flag = true ∧
    (worldStep
        { flag := false, cell := KeyInput.init, samplers := [(true, 4)], log := [] }
        (Action.dispatch BleEvent.NotifyUnsubscribe)).flag = false ∧
    ((false : Bool) = false →
      [((true : Bool), (4 : Nat))].get? 0 = some (true, 4) →
      (worldStep
          { flag := false, cell := KeyInput.init, samplers := [(true, 4)], log := [] }
          (Action.step 0)).samplers = [(true, 4)].set 0 (false, 4) ∧
      (worldStep
          { flag := false, cell := KeyInput.init, samplers := [(true, 4)], log := [] }
          (Action.step 0)).log = []) ∧
    (worldRun [Action.dispatch BleEvent.NotifySubscribe, Action.step 0,
        Action.dispatch BleEvent.NotifyUnsubscribe,
        Action.dispatch BleEvent.NotifySubscribe,
        Action.step 0, Action.step 1]).log =
      [(0, KeyInput.default.to_payload 0), (0, KeyInput.default.to_payload 2),
       (1, KeyInput.default.to_payload 0)] :=
  shared_notifying_flag
    { flag := false, cell := KeyInput.init, samplers := [(true, 4)], log := [] } 0 4

end Beatble
